import Mathlib

/-!
RV-C Source Address Claim Arbitration — shallow embedding.

This file embeds the address-claim arbitration core of the rv-link-node-red
repository: the claim-request handler (`functions/address_claim_request.js`),
the conflict monitor (`functions/address_claim_monitor.js`), the canonical
silent-commit success handler (`functions/address_claim_success.js`) and the
divergent re-broadcast success variant (`functions/unique_autofill.js`,
second document).

JavaScript strings are `String`, absent (`undefined`/`null`) values are
`Option`, thrown exceptions are `Except.error`, and JS numbers holding
addresses are `Int`.  The Node-RED `flow`/`global`/`context` keys the four
handlers touch are collected in one record, `SysState`.
-/

namespace RVC

/-- Models JavaScript `String.prototype.toUpperCase` on one character
(ASCII case mapping; every string this code handles is ASCII). -/
def charUpper (c : Char) : Char :=
  if 97 ≤ c.toNat ∧ c.toNat ≤ 122 then Char.ofNat (c.toNat - 32) else c

/-- Models JavaScript `s.toUpperCase()`. -/
def jsToUpper (s : String) : String :=
  ⟨s.data.map charUpper⟩

/-- Value of one hexadecimal digit character, `none` for a non-digit. -/
def hexDigitVal? (c : Char) : Option Nat :=
  if 48 ≤ c.toNat ∧ c.toNat ≤ 57 then some (c.toNat - 48)
  else if 65 ≤ c.toNat ∧ c.toNat ≤ 70 then some (c.toNat - 55)
  else if 97 ≤ c.toNat ∧ c.toNat ≤ 102 then some (c.toNat - 87)
  else none

/-- Models `BigInt("0x" + s)`: the numeric value when `s` is a nonempty string
of hex digits, `none` for the thrown `SyntaxError` otherwise. -/
def hexVal? (s : String) : Option Nat :=
  if s.data.isEmpty then none
  else s.data.foldl
    (fun acc c => acc.bind (fun a => (hexDigitVal? c).map (fun d => a * 16 + d)))
    (some 0)

/-- Models `parseInt(s, 16)` on the decoded source-address strings this flow
produces: the value of the longest leading run of hex digits, `none` (= `NaN`)
when there is none. -/
def jsParseHexInt (s : String) : Option Int :=
  let ds := s.data.takeWhile (fun c => (hexDigitVal? c).isSome)
  if ds.isEmpty then none
  else some (Int.ofNat (ds.foldl (fun a c => a * 16 + (hexDigitVal? c).getD 0) 0))

/-- Lower-case hex digit character, as produced by JS `Number.toString(16)`. -/
def hexCharLower (n : Nat) : Char :=
  if n < 10 then Char.ofNat (48 + n) else Char.ofNat (87 + n)

/-- Fuel-driven hex rendering (big-endian digit list, lower case). -/
def natToHexListFuel : Nat → Nat → List Char
  | 0, _ => []
  | f + 1, n =>
    if n < 16 then [hexCharLower n]
    else natToHexListFuel f (n / 16) ++ [hexCharLower (n % 16)]

/-- Models `n.toString(16)` as a digit list (`n + 1` fuel always suffices). -/
def natToHexList (n : Nat) : List Char :=
  natToHexListFuel (n + 1) n

/-- Models `padStart(w, c)` on a character list. -/
def padStartList (w : Nat) (c : Char) (l : List Char) : List Char :=
  List.replicate (w - l.length) c ++ l

/-- Models `n.toString(16).padStart(w, '0').toUpperCase()`. -/
def toHexPadUpper (w : Nat) (n : Nat) : String :=
  jsToUpper ⟨padStartList w '0' (natToHexList n)⟩

/-- The generated persistent DEVICE_NAME:
`"8000000000" + randomSerial.toString(16).padStart(6, '0').toUpperCase()`. -/
def genId (serial : Nat) : String :=
  "8000000000" ++ toHexPadUpper 6 serial

/-- `STARTING_ADDRESS` of `address_claim_request.js`. -/
def STARTING_ADDRESS : Int := 223

/-- `MIN_ADDRESS` of `address_claim_request.js`. -/
def MIN_ADDRESS : Int := 208

/-- The `flow`/`global`/`context` keys touched by the four claim handlers. -/
structure SysState where
  my_persistent_rvc_id : Option String
  address_attempt : Option Int
  used_addresses : List Int
  claim_in_progress : Bool
  claiming_address : Option Int
  our_device_name : Option String
  rvc_source_address : Option Int
deriving DecidableEq

/-- Models JavaScript `o || d` on a number read from context
(`undefined`/`null` and `0` are falsy). -/
def jsOrInt (o : Option Int) (d : Int) : Int :=
  match o with
  | none => d
  | some v => if v = 0 then d else v

/-- Fuel-driven form of the skip-used-addresses `while` loop of
`address_claim_request.js`:
`while (usedAddresses.has(addressToTry) && addressToTry >= MIN_ADDRESS) addressToTry--`. -/
def skipUsedFuel : Nat → List Int → Int → Int
  | 0, _, a => a
  | f + 1, used, a =>
    if a ∈ used ∧ a ≥ 208 then skipUsedFuel f used (a - 1) else a

/-- The skip-used-addresses loop; `(a - 207).toNat` fuel is exact because each
iteration requires `a ≥ 208` and decrements `a` by one. -/
def skipUsed (used : List Int) (a : Int) : Int :=
  skipUsedFuel (a - 207).toNat used a

/-- The address-selection portion of `address_claim_request.js` (spec §4.2):
start from the attempt counter (`STARTING_ADDRESS` when absent), decrement by
one exactly when the invocation is a loss retry, then run the skip loop. -/
def nextCandidate (previous : Option Int) (used : List Int) (afterLoss : Bool) : Int :=
  let start := jsOrInt previous STARTING_ADDRESS
  let base := if afterLoss then start - 1 else start
  skipUsed used base

/-- 29-bit claim identifier of `address_claim_request.js`:
`(priority << 26) | (parseInt("EE00", 16) << 8) | addressToTry` with priority 6. -/
def claimCanId (address : Int) : Nat :=
  Nat.lor (Nat.lor (6 <<< 26) (0xEE00 <<< 8)) address.toNat

/-- Frame construction of the Claim Broadcaster:
`canIdNum.toString(16).padStart(8,'0').toUpperCase() + "#" + DEVICE_NAME`. -/
def broadcastClaim (name : String) (address : Int) : String :=
  toHexPadUpper 8 (claimCanId address) ++ "#" ++ name

/-- Step 1 of `address_claim_request.js`: a `reset_device_id` trigger clears
the persistent id and the attempt counter, then the handler falls through and
claims with a freshly generated id. -/
def afterReset (st : SysState) (topic : String) : SysState :=
  if topic = "reset_device_id" then
    { st with my_persistent_rvc_id := none, address_attempt := none }
  else st

/-- The `if (!uniqueId)` test of step 2: the persistent id is (re)generated
when the stored value is absent or the empty string (JS falsiness). -/
def idMissing (o : Option String) : Bool :=
  match o with
  | none => true
  | some s => s = ""

/-- The DEVICE_NAME one invocation uses: the stored persistent id, or the
freshly generated one. -/
def claimedDeviceName (st1 : SysState) (serial : Nat) : String :=
  if idMissing st1.my_persistent_rvc_id then genId serial
  else st1.my_persistent_rvc_id.getD ""

/-- The state after steps 1–2 of the request handler: reset handling followed
by the persistent-id write when the id was missing. -/
def requestMidState (st : SysState) (topic : String) (serial : Nat) : SysState :=
  if idMissing (afterReset st topic).my_persistent_rvc_id then
    { afterReset st topic with my_persistent_rvc_id := some (genId serial) }
  else afterReset st topic

/-- One invocation of `address_claim_request.js`.  `serial` is the
`Math.floor(Math.random() * 0x1FFFFF)` draw used only when no persistent id
exists.  The output is `msg` as the node returns it: `none` when the pool is
exhausted, otherwise `(msg.claiming_address, msg.payload)` — the candidate
address the armed timer will carry back, and the CAN frame string. -/
def addressClaimRequest (st : SysState) (topic : String) (serial : Nat) :
    SysState × Option (Int × String) :=
  let st2 := requestMidState st topic serial
  let addr := nextCandidate st2.address_attempt st2.used_addresses
    (topic = "address_claim_retry")
  if addr < MIN_ADDRESS then
    ({ st2 with claim_in_progress := false }, none)
  else
    ({ st2 with
        address_attempt := some addr,
        claiming_address := some addr,
        claim_in_progress := true,
        our_device_name := some (claimedDeviceName (afterReset st topic) serial) },
      some (addr, broadcastClaim (claimedDeviceName (afterReset st topic) serial) addr))

/-- Output of the conflict monitor: `retryReset` models the pair
`[{topic:"address_claim_retry"}, {reset:true}]` that re-invokes the Address
Selector / Claim Broadcaster and resets the arbitration timer. -/
inductive MonitorOut
  | none
  | retryReset
deriving DecidableEq

/-- One invocation of `address_claim_monitor.js` on a decoded ADDRESS_CLAIMED
message.  `sourceAddress` and `dataPayload` are the two payload fields, with
`none` for an absent field; `Except.error` models a thrown exception
(`undefined.toUpperCase()`, or `BigInt` applied to a non-hex string). -/
def onAddressClaimedReceived (st : SysState) (sourceAddress : Option String)
    (dataPayload : Option String) : Except Unit (SysState × MonitorOut) :=
  if !st.claim_in_progress then .ok (st, .none)
  else
    match dataPayload with
    | none => .error ()
    | some pl =>
      match sourceAddress.bind jsParseHexInt with
      | none => .ok (st, .none)
      | some v =>
        if st.claiming_address = some v then
          if some (jsToUpper pl) = st.our_device_name then .ok (st, .none)
          else
            match st.our_device_name.bind hexVal?, hexVal? (jsToUpper pl) with
            | some ourV, some compV =>
              if ourV < compV then .ok (st, .none)
              else .ok ({ st with claim_in_progress := false }, .retryReset)
            | _, _ => .error ()
        else .ok (st, .none)

/-- The state after a monitor invocation; a thrown exception aborts the handler
before any write, leaving the state as it was. -/
def monitorState (st : SysState) (src dataPayload : Option String) : SysState :=
  match onAddressClaimedReceived st src dataPayload with
  | .ok (s, _) => s
  | .error _ => st

/-- One invocation of the canonical success handler
`address_claim_success.js`; the argument is `msg.claiming_address`, the
address token the timer carries.  The `Option String` output is the CAN frame
sent: always `none` — this handler never re-broadcasts. -/
def onClaimTimerFired (st : SysState) (claimingAddressTok : Option Int) :
    SysState × Option String :=
  match claimingAddressTok with
  | none => (st, none)
  | some a =>
    if !st.claim_in_progress then (st, none)
    else if st.claiming_address ≠ some a then (st, none)
    else
      ({ st with rvc_source_address := some a,
                 claim_in_progress := false,
                 claiming_address := none,
                 our_device_name := none }, none)

/-- 29-bit identifier of the re-broadcast variant (`unique_autofill.js`):
`((6 << 26) | (0xEE << 18) | (0x00 << 8) | claimedAddress) >>> 0`.
(Note the variant shifts the DGN high byte by 18, not 16.) -/
def autofillCanId (address : Int) : Nat :=
  Nat.lor (Nat.lor (Nat.lor (6 <<< 26) (0xEE <<< 18)) (0x00 <<< 8)) address.toNat

/-- One invocation of the re-broadcast success variant in
`unique_autofill.js`.  It takes no address token: it re-reads the live
`claiming_address`, re-broadcasts the hard-coded 8-byte payload
`"C3A1F00700000000"`, commits, and clears `claim_in_progress` and
`claiming_address` (but not `our_device_name`). -/
def onClaimTimerFiredAutofill (st : SysState) : SysState × Option String :=
  if !st.claim_in_progress then (st, none)
  else
    match st.claiming_address with
    | none => (st, none)
    | some a =>
      ({ st with rvc_source_address := some a,
                 claim_in_progress := false,
                 claiming_address := none },
        some (toHexPadUpper 8 (autofillCanId a) ++ "#" ++ "C3A1F00700000000"))

/-- Events of the canonical arbitration core (spec §9 event types):
a trigger of the request node, an inbound decoded ADDRESS_CLAIMED frame, and
an expiry of the 250 ms timer carrying its address token. -/
inductive Event
  | request (topic : String) (serial : Nat)
  | frame (sourceAddress : Option String) (dataPayload : Option String)
  | timer (tok : Option Int)

/-- System state extended with the ghost field `lastBroadcast`: the address of
the most recently transmitted claim frame. -/
structure GState where
  sys : SysState
  lastBroadcast : Option Int
deriving DecidableEq

/-- Event dispatch over the canonical handlers. -/
def step (g : GState) : Event → GState
  | .request topic serial =>
    let r := addressClaimRequest g.sys topic serial
    { sys := r.1,
      lastBroadcast := match r.2 with
        | some (a, _) => some a
        | none => g.lastBroadcast }
  | .frame src pl => { g with sys := monitorState g.sys src pl }
  | .timer tok => { g with sys := (onClaimTimerFired g.sys tok).1 }

/-- Process start: every transient flag false/null, no durable keys set. -/
def initSys : SysState :=
  { my_persistent_rvc_id := none
    address_attempt := none
    used_addresses := []
    claim_in_progress := false
    claiming_address := none
    our_device_name := none
    rvc_source_address := none }

/-- Initial extended state. -/
def initG : GState :=
  { sys := initSys, lastBroadcast := none }

/-- Run a list of events from process start. -/
def run (evs : List Event) : GState :=
  evs.foldl step initG

/-- Reachability under single-threaded cooperative dispatch of the three
canonical event handlers. -/
inductive Reachable : GState → Prop
  | init : Reachable initG
  | next : ∀ {g}, Reachable g → ∀ e, Reachable (step g e)

/-! ## Helper lemmas -/

/-- The sixteen lower-case hexadecimal digit characters. -/
def lowerHexChars : List Char := "0123456789abcdef".data

theorem hexCharLower_mem : ∀ k < 16, hexCharLower k ∈ lowerHexChars := by decide

theorem natToHexListFuel_mem (f : Nat) :
    ∀ n, ∀ c ∈ natToHexListFuel f n, c ∈ lowerHexChars := by
  induction f with
  | zero => intro n c hc; simp [natToHexListFuel] at hc
  | succ f ih =>
    intro n c hc
    unfold natToHexListFuel at hc
    split at hc
    · rename_i hlt
      simp only [List.mem_singleton] at hc
      subst hc
      exact hexCharLower_mem n hlt
    · rcases List.mem_append.mp hc with h | h
      · exact ih _ c h
      · simp only [List.mem_singleton] at h
        subst h
        exact hexCharLower_mem _ (Nat.mod_lt _ (by omega))

theorem charUpper_charUpper_lowerHex :
    ∀ c ∈ lowerHexChars, charUpper (charUpper c) = charUpper c := by decide

theorem jsToUpper_append (a b : String) :
    jsToUpper (a ++ b) = jsToUpper a ++ jsToUpper b := by
  apply String.ext
  simp [jsToUpper, String.data_append]

theorem jsToUpper_idem_of_lowerHex (l : List Char) (h : ∀ c ∈ l, c ∈ lowerHexChars) :
    jsToUpper (jsToUpper ⟨l⟩) = jsToUpper ⟨l⟩ := by
  apply String.ext
  show (l.map charUpper).map charUpper = l.map charUpper
  rw [List.map_map]
  apply List.map_congr_left
  intro c hc
  exact charUpper_charUpper_lowerHex c (h c hc)

theorem toHexPadUpper_fixed (w n : Nat) :
    jsToUpper (toHexPadUpper w n) = toHexPadUpper w n := by
  unfold toHexPadUpper
  apply jsToUpper_idem_of_lowerHex
  intro c hc
  unfold padStartList at hc
  rcases List.mem_append.mp hc with h | h
  · rw [List.eq_of_mem_replicate h]; decide
  · exact natToHexListFuel_mem _ _ c h

theorem jsToUpper_genId (serial : Nat) : jsToUpper (genId serial) = genId serial := by
  unfold genId
  rw [jsToUpper_append, toHexPadUpper_fixed]
  have h : jsToUpper "8000000000" = "8000000000" := by decide
  rw [h]

/-- Every generated id is `"8000000000"` followed by an upper-case-fixed tail. -/
theorem genId_shape (serial : Nat) :
    ∃ t, genId serial = "8000000000" ++ t ∧ jsToUpper t = t :=
  ⟨toHexPadUpper 6 serial, rfl, toHexPadUpper_fixed 6 serial⟩

theorem skipUsedFuel_congr (f₁ : Nat) :
    ∀ (f₂ : Nat) (used : List Int) (a : Int),
      (a - 207).toNat ≤ f₁ → (a - 207).toNat ≤ f₂ →
      skipUsedFuel f₁ used a = skipUsedFuel f₂ used a := by
  induction f₁ with
  | zero =>
    intro f₂ used a h₁ h₂
    cases f₂ with
    | zero => rfl
    | succ f₂ =>
      simp only [skipUsedFuel]
      rw [if_neg]
      rintro ⟨-, hge⟩
      omega
  | succ f ih =>
    intro f₂ used a h₁ h₂
    cases f₂ with
    | zero =>
      simp only [skipUsedFuel]
      rw [if_neg]
      rintro ⟨-, hge⟩
      omega
    | succ f₂ =>
      simp only [skipUsedFuel]
      by_cases hc : a ∈ used ∧ a ≥ 208
      · rw [if_pos hc, if_pos hc]
        have hge := hc.2
        exact ih f₂ used (a - 1) (by omega) (by omega)
      · rw [if_neg hc, if_neg hc]

/-- The defining one-step unfolding of the skip-used-addresses loop. -/
theorem skipUsed_eq (used : List Int) (a : Int) :
    skipUsed used a = if a ∈ used ∧ a ≥ 208 then skipUsed used (a - 1) else a := by
  by_cases hc : a ∈ used ∧ a ≥ 208
  · rw [if_pos hc]
    have hge := hc.2
    unfold skipUsed
    have h : (a - 207).toNat = ((a - 1) - 207).toNat + 1 := by omega
    rw [h]
    simp only [skipUsedFuel]
    rw [if_pos hc]
  · rw [if_neg hc]
    unfold skipUsed
    cases hk : (a - 207).toNat with
    | zero => rfl
    | succ k =>
      simp only [skipUsedFuel]
      rw [if_neg hc]

/-- Full characterization of the skip loop: the result is at most the start,
it is either out of the pool or unoccupied, and everything strictly between it
and the start is an occupied in-pool address. -/
theorem skipUsed_spec (used : List Int) (a : Int) :
    skipUsed used a ≤ a ∧ (skipUsed used a < 208 ∨ skipUsed used a ∉ used) ∧
      ∀ b : Int, skipUsed used a < b → b ≤ a → b ∈ used ∧ 208 ≤ b := by
  generalize hk : (a - 207).toNat = k
  induction k generalizing a with
  | zero =>
    rw [skipUsed_eq, if_neg (by rintro ⟨-, hge⟩; omega)]
    exact ⟨le_refl a, Or.inl (by omega), fun b h1 h2 => absurd h1 (by omega)⟩
  | succ k ih =>
    rw [skipUsed_eq]
    by_cases hc : a ∈ used ∧ a ≥ 208
    · rw [if_pos hc]
      have hge := hc.2
      obtain ⟨h1, h2, h3⟩ := ih (a - 1) (by omega)
      refine ⟨by omega, h2, fun b hb1 hb2 => ?_⟩
      by_cases hba : b ≤ a - 1
      · exact h3 b hb1 hba
      · have hb : b = a := by omega
        subst hb
        exact ⟨hc.1, hc.2⟩
    · rw [if_neg hc]
      refine ⟨le_refl a, ?_, fun b h1 h2 => absurd h1 (by omega)⟩
      by_cases hmem : a ∈ used
      · rcases not_and_or.mp hc with h | h
        · exact absurd hmem h
        · exact Or.inl (by omega)
      · exact Or.inr hmem

theorem afterReset_fields (st : SysState) (topic : String) :
    (afterReset st topic).our_device_name = st.our_device_name ∧
    (afterReset st topic).claiming_address = st.claiming_address ∧
    (afterReset st topic).used_addresses = st.used_addresses ∧
    (afterReset st topic).claim_in_progress = st.claim_in_progress ∧
    (afterReset st topic).rvc_source_address = st.rvc_source_address := by
  unfold afterReset
  split <;> exact ⟨rfl, rfl, rfl, rfl, rfl⟩

theorem afterReset_id (st : SysState) (topic : String) :
    (afterReset st topic).my_persistent_rvc_id = st.my_persistent_rvc_id ∨
      (afterReset st topic).my_persistent_rvc_id = none := by
  unfold afterReset
  split
  · exact Or.inr rfl
  · exact Or.inl rfl

theorem claimedDeviceName_shape (st1 : SysState) (serial : Nat)
    (h : ∀ s, st1.my_persistent_rvc_id = some s →
      ∃ t, s = "8000000000" ++ t ∧ jsToUpper t = t) :
    ∃ t, claimedDeviceName st1 serial = "8000000000" ++ t ∧ jsToUpper t = t := by
  unfold claimedDeviceName
  split
  · exact genId_shape serial
  · rename_i hmiss
    match hid : st1.my_persistent_rvc_id with
    | none => simp [idMissing, hid] at hmiss
    | some s => simpa [hid] using h s hid

theorem requestMidState_fields (st : SysState) (topic : String) (serial : Nat) :
    (requestMidState st topic serial).our_device_name = st.our_device_name ∧
    (requestMidState st topic serial).claiming_address = st.claiming_address ∧
    (requestMidState st topic serial).used_addresses = st.used_addresses ∧
    (requestMidState st topic serial).claim_in_progress = st.claim_in_progress ∧
    (requestMidState st topic serial).rvc_source_address = st.rvc_source_address := by
  obtain ⟨hf1, hf2, hf3, hf4, hf5⟩ := afterReset_fields st topic
  unfold requestMidState
  split <;> exact ⟨hf1, hf2, hf3, hf4, hf5⟩

theorem requestMidState_id (st : SysState) (topic : String) (serial : Nat) :
    (requestMidState st topic serial).my_persistent_rvc_id = st.my_persistent_rvc_id ∨
      (requestMidState st topic serial).my_persistent_rvc_id = some (genId serial) := by
  unfold requestMidState
  split
  · exact Or.inr rfl
  · rcases afterReset_id st topic with h | h
    · exact Or.inl h
    · rename_i hmiss
      rw [h] at hmiss
      simp [idMissing] at hmiss

/-- Branch description of one request invocation: either the pool check fails
(clearing only `claim_in_progress`, sending nothing) or the handler
broadcasts a claim for some candidate address. -/
theorem addressClaimRequest_cases (st : SysState) (topic : String) (serial : Nat) :
    addressClaimRequest st topic serial =
        ({ requestMidState st topic serial with claim_in_progress := false }, none) ∨
      ∃ a, addressClaimRequest st topic serial =
        ({ requestMidState st topic serial with
            address_attempt := some a,
            claiming_address := some a,
            claim_in_progress := true,
            our_device_name := some (claimedDeviceName (afterReset st topic) serial) },
          some (a, broadcastClaim (claimedDeviceName (afterReset st topic) serial) a)) := by
  simp only [addressClaimRequest]
  split
  · exact Or.inl rfl
  · exact Or.inr ⟨_, rfl⟩

/-- The monitor's result is a throw, an `ok` that left the state untouched,
or the loss outcome that clears exactly the `claim_in_progress` flag. -/
theorem onAddressClaimedReceived_cases (st : SysState) (src pl : Option String) :
    onAddressClaimedReceived st src pl = .error () ∨
      (∃ o, onAddressClaimedReceived st src pl = .ok (st, o)) ∨
      onAddressClaimedReceived st src pl =
        .ok ({ st with claim_in_progress := false }, .retryReset) := by
  unfold onAddressClaimedReceived
  repeat' split
  all_goals first
    | exact Or.inl rfl
    | exact Or.inr (Or.inl ⟨_, rfl⟩)
    | exact Or.inr (Or.inr rfl)

/-- The conflict monitor either leaves the state unchanged (including when it
throws) or clears exactly the `claim_in_progress` flag. -/
theorem monitor_cases (st : SysState) (src pl : Option String) :
    monitorState st src pl = st ∨
      monitorState st src pl = { st with claim_in_progress := false } := by
  rcases onAddressClaimedReceived_cases st src pl with h | ⟨o, h⟩ | h <;>
    unfold monitorState <;> rw [h]
  · exact Or.inl rfl
  · exact Or.inl rfl
  · exact Or.inr rfl

/-- The canonical success handler either leaves the state unchanged or
commits: it writes the token as the committed source address and clears all
three claim-progress fields. -/
theorem onClaimTimerFired_cases (st : SysState) (tok : Option Int) :
    (onClaimTimerFired st tok).1 = st ∨
      ∃ a, (onClaimTimerFired st tok).1 =
        { st with rvc_source_address := some a, claim_in_progress := false,
                  claiming_address := none, our_device_name := none } := by
  unfold onClaimTimerFired
  repeat' split
  all_goals first
    | exact Or.inl rfl
    | exact Or.inr ⟨_, rfl⟩

/-- Combined reachable-state invariant: every stored NAME is `"8000000000"`
followed by an upper-case-fixed tail, and the live `claiming_address`, when
set, is the address of the most recently broadcast claim frame. -/
theorem reachable_inv (g : GState) (hg : Reachable g) :
    ((∀ s, g.sys.my_persistent_rvc_id = some s →
        ∃ t, s = "8000000000" ++ t ∧ jsToUpper t = t) ∧
      (∀ s, g.sys.our_device_name = some s →
        ∃ t, s = "8000000000" ++ t ∧ jsToUpper t = t)) ∧
      (∀ a, g.sys.claiming_address = some a → g.lastBroadcast = some a) := by
  induction hg with
  | init =>
    refine ⟨⟨?_, ?_⟩, ?_⟩ <;> intro s hs <;> simp [initG, initSys] at hs
  | next hg e ih =>
    obtain ⟨⟨ih1, ih2⟩, ihg⟩ := ih
    rename_i g
    cases e with
    | request topic serial =>
      obtain ⟨hname, hcla, hused, hclaim, hsrc⟩ := requestMidState_fields g.sys topic serial
      have hidshape : ∀ s, (requestMidState g.sys topic serial).my_persistent_rvc_id = some s →
          ∃ t, s = "8000000000" ++ t ∧ jsToUpper t = t := by
        intro s hs
        rcases requestMidState_id g.sys topic serial with h | h
        · exact ih1 s (h ▸ hs)
        · rw [h] at hs
          cases hs
          exact genId_shape serial
      have hreset : ∀ s, (afterReset g.sys topic).my_persistent_rvc_id = some s →
          ∃ t, s = "8000000000" ++ t ∧ jsToUpper t = t := by
        intro s hs
        rcases afterReset_id g.sys topic with h | h
        · exact ih1 s (h ▸ hs)
        · rw [h] at hs
          cases hs
      rcases addressClaimRequest_cases g.sys topic serial with h | ⟨a, h⟩
      · simp only [step, h]
        refine ⟨⟨hidshape, ?_⟩, ?_⟩
        · intro s hs
          exact ih2 s (hname ▸ hs)
        · intro b hb
          exact ihg b (hcla ▸ hb)
      · simp only [step, h]
        refine ⟨⟨hidshape, ?_⟩, ?_⟩
        · intro s hs
          cases hs
          exact claimedDeviceName_shape _ serial hreset
        · intro b hb
          cases hb
          rfl
    | frame src pl =>
      rcases monitor_cases g.sys src pl with h | h <;>
        simp only [step, h] <;>
        exact ⟨⟨ih1, ih2⟩, ihg⟩
    | timer tok =>
      rcases onClaimTimerFired_cases g.sys tok with h | ⟨a, h⟩ <;>
        simp only [step, h]
      · exact ⟨⟨ih1, ih2⟩, ihg⟩
      · refine ⟨⟨ih1, ?_⟩, ?_⟩ <;> intro s hs <;> simp at hs

/-- Evaluation of the monitor on a genuine conflict: while claiming, with a
frame for the claimed address whose upper-cased identity differs from ours,
the outcome is decided by comparing the two identities as unsigned integers:
strictly smaller wins (no-op), otherwise the loss path runs. -/
theorem monitor_conflict_eval (st : SysState) (src : Option String) (pl n : String)
    (a : Int) (nv cv : Nat)
    (hc : st.claim_in_progress = true)
    (ha : st.claiming_address = some a)
    (hsrc : src.bind jsParseHexInt = some a)
    (hn : st.our_device_name = some n)
    (hnv : hexVal? n = some nv)
    (hcv : hexVal? (jsToUpper pl) = some cv)
    (hne : jsToUpper pl ≠ n) :
    onAddressClaimedReceived st src (some pl) =
      if nv < cv then .ok (st, .none)
      else .ok ({ st with claim_in_progress := false }, .retryReset) := by
  unfold onAddressClaimedReceived
  rw [hsrc]
  simp [hc, ha, hn, hnv, hcv, hne]

/-! ## Claim theorems -/

/-- C1: while claiming, an inbound claim frame carrying the live claiming
address and a competitor identity different from `ourName` is arbitrated by
comparing the two identities as unsigned big-endian 64-bit integers
(`BigInt("0x" + name)`): if `ourName` is numerically smaller, nothing changes
and nothing is sent (the timer continues); if larger, `claiming` is cleared
and the retry/reset pair re-invoking selector and broadcaster is emitted.
Consequently, for two distinct identities contending for one address, the
numerically smaller side proceeds and the larger side retries; arrival order
is irrelevant because each side's decision depends only on the one frame it
receives. -/
theorem C1_conflict_arbitration :
    (∀ (st : SysState) (src : Option String) (pl n : String) (a : Int) (nv cv : Nat),
      st.claim_in_progress = true →
      st.claiming_address = some a →
      src.bind jsParseHexInt = some a →
      st.our_device_name = some n →
      hexVal? n = some nv →
      hexVal? (jsToUpper pl) = some cv →
      jsToUpper pl ≠ n →
      (nv < cv → onAddressClaimedReceived st src (some pl) = .ok (st, .none)) ∧
      (cv < nv → onAddressClaimedReceived st src (some pl) =
        .ok ({ st with claim_in_progress := false }, .retryReset))) ∧
    (∀ (stA stB : SysState) (srcS : Option String) (nA nB : String) (a : Int) (vA vB : Nat),
      stA.claim_in_progress = true → stB.claim_in_progress = true →
      stA.claiming_address = some a → stB.claiming_address = some a →
      srcS.bind jsParseHexInt = some a →
      stA.our_device_name = some nA → stB.our_device_name = some nB →
      jsToUpper nA = nA → jsToUpper nB = nB →
      hexVal? nA = some vA → hexVal? nB = some vB →
      vA ≠ vB →
      (vA < vB →
        onAddressClaimedReceived stA srcS (some nB) = .ok (stA, .none) ∧
        onAddressClaimedReceived stB srcS (some nA) =
          .ok ({ stB with claim_in_progress := false }, .retryReset)) ∧
      (vB < vA →
        onAddressClaimedReceived stB srcS (some nA) = .ok (stB, .none) ∧
        onAddressClaimedReceived stA srcS (some nB) =
          .ok ({ stA with claim_in_progress := false }, .retryReset))) := by
  constructor
  · intro st src pl n a nv cv hc ha hsrc hn hnv hcv hne
    constructor
    · intro hlt
      rw [monitor_conflict_eval st src pl n a nv cv hc ha hsrc hn hnv hcv hne, if_pos hlt]
    · intro hlt
      rw [monitor_conflict_eval st src pl n a nv cv hc ha hsrc hn hnv hcv hne,
        if_neg (by omega)]
  · intro stA stB srcS nA nB a vA vB hcA hcB haA haB hsrc hnA hnB hupA hupB hVA hVB hne
    have hBneA : jsToUpper nB ≠ nA := by
      rw [hupB]
      intro h
      have hv := hVB
      rw [h, hVA] at hv
      exact hne (Option.some.inj hv)
    have hAneB : jsToUpper nA ≠ nB := by
      rw [hupA]
      intro h
      have hv := hVA
      rw [h, hVB] at hv
      exact hne (Option.some.inj hv).symm
    have hcvB : hexVal? (jsToUpper nB) = some vB := by rw [hupB]; exact hVB
    have hcvA : hexVal? (jsToUpper nA) = some vA := by rw [hupA]; exact hVA
    constructor
    · intro hlt
      constructor
      · rw [monitor_conflict_eval stA srcS nB nA a vA vB hcA haA hsrc hnA hVA hcvB hBneA,
          if_pos hlt]
      · rw [monitor_conflict_eval stB srcS nA nB a vB vA hcB haB hsrc hnB hVB hcvA hAneB,
          if_neg (by omega)]
    · intro hlt
      constructor
      · rw [monitor_conflict_eval stB srcS nA nB a vB vA hcB haB hsrc hnB hVB hcvA hAneB,
          if_pos hlt]
      · rw [monitor_conflict_eval stA srcS nB nA a vA vB hcA haA hsrc hnA hVA hcvB hBneA,
          if_neg (by omega)]

/-- C1 witness: identities `0x7000000000112233` (node A) and
`0x8000000000000001` (node B) contending for address 223 (`"DF"`): A, the
numerically smaller, ignores B's frame; B loses and emits the retry pair. -/
theorem C1_conflict_arbitration_witness :
    onAddressClaimedReceived
        { initSys with
            claim_in_progress := true,
            claiming_address := some 223,
            our_device_name := some "7000000000112233" }
        (some "DF") (some "8000000000000001") =
      .ok ({ initSys with
          claim_in_progress := true,
          claiming_address := some 223,
          our_device_name := some "7000000000112233" }, .none) ∧
    onAddressClaimedReceived
        { initSys with
            claim_in_progress := true,
            claiming_address := some 223,
            our_device_name := some "8000000000000001" }
        (some "DF") (some "7000000000112233") =
      .ok ({ initSys with
          claim_in_progress := false,
          claiming_address := some 223,
          our_device_name := some "8000000000000001" }, .retryReset) := by
  have h := (C1_conflict_arbitration.2
    { initSys with
        claim_in_progress := true,
        claiming_address := some 223,
        our_device_name := some "7000000000112233" }
    { initSys with
        claim_in_progress := true,
        claiming_address := some 223,
        our_device_name := some "8000000000000001" }
    (some "DF") "7000000000112233" "8000000000000001" 223
    0x7000000000112233 0x8000000000000001
    rfl rfl rfl rfl (by decide) rfl rfl (by decide) (by decide) (by decide) (by decide)
    (by decide)).1 (by decide)
  exact h

/-- C2: the canonical success handler `onClaimTimerFired` satisfies the
three-step contract: with `claiming` false it is a no-op (state unchanged, no
frame sent); with a live claiming address different from the token it is
likewise a no-op; otherwise it durably writes the token as the committed
source address, clears all three ClaimProgress fields, and sends no frame. -/
theorem C2_onClaimTimerFired_contract (st : SysState) (a : Int) :
    (st.claim_in_progress = false → onClaimTimerFired st (some a) = (st, none)) ∧
    (st.claiming_address ≠ some a → onClaimTimerFired st (some a) = (st, none)) ∧
    (st.claim_in_progress = true → st.claiming_address = some a →
      onClaimTimerFired st (some a) =
        ({ st with
            rvc_source_address := some a,
            claim_in_progress := false,
            claiming_address := none,
            our_device_name := none }, none)) := by
  refine ⟨fun h => ?_, fun h => ?_, fun h1 h2 => ?_⟩
  · simp [onClaimTimerFired, h]
  · cases hc : st.claim_in_progress <;> simp [onClaimTimerFired, hc, h]
  · simp [onClaimTimerFired, h1, h2]

/-- C2 witness: token 223 in a live claiming state for 223 commits and clears;
the stale-token and not-claiming no-ops are exercised on matching states. -/
theorem C2_onClaimTimerFired_contract_witness :
    onClaimTimerFired
        { initSys with
            claim_in_progress := true,
            claiming_address := some 223,
            our_device_name := some "8000000000ABCDEF" } (some 223) =
      ({ initSys with
          claim_in_progress := false,
          claiming_address := none,
          our_device_name := none,
          rvc_source_address := some 223 }, none) ∧
    onClaimTimerFired { initSys with claim_in_progress := false } (some 223) =
      ({ initSys with claim_in_progress := false }, none) ∧
    onClaimTimerFired
        { initSys with
            claim_in_progress := true,
            claiming_address := some 222 } (some 223) =
      ({ initSys with
          claim_in_progress := true,
          claiming_address := some 222 }, none) := by
  refine ⟨?_, ?_, ?_⟩
  · exact (C2_onClaimTimerFired_contract
      { initSys with
          claim_in_progress := true,
          claiming_address := some 223,
          our_device_name := some "8000000000ABCDEF" } 223).2.2 rfl rfl
  · exact (C2_onClaimTimerFired_contract
      { initSys with claim_in_progress := false } 223).1 rfl
  · exact (C2_onClaimTimerFired_contract
      { initSys with
          claim_in_progress := true,
          claiming_address := some 222 } 223).2.1 (by decide)

/-- C3: self-echo immunity holds in every reachable state: an inbound claim
frame whose identity is byte-for-byte `ClaimProgress.ourName` is a complete
no-op — the state (in particular `claiming`) is untouched and no output is
produced, so the arbitration timer keeps running.  (Reachability matters: it
supplies the invariant that stored NAMEs are upper-case-fixed, so the
handler's `toUpperCase` call cannot turn our own echoed NAME into a
"different" competitor.) -/
theorem C3_selfEcho_immune (g : GState) (hg : Reachable g) (p : String)
    (hp : g.sys.our_device_name = some p) (src : Option String) :
    onAddressClaimedReceived g.sys src (some p) = .ok (g.sys, .none) := by
  obtain ⟨⟨-, hshape⟩, -⟩ := reachable_inv g hg
  obtain ⟨t, hpt, hfix⟩ := hshape p hp
  have hup : jsToUpper p = p := by
    rw [hpt, jsToUpper_append, hfix]
    have h8 : jsToUpper "8000000000" = "8000000000" := by decide
    rw [h8]
  unfold onAddressClaimedReceived
  cases hc : g.sys.claim_in_progress
  · simp
  · simp only [Bool.not_true, Bool.false_eq_true, if_false]
    cases hsrc : src.bind jsParseHexInt with
    | none => rfl
    | some v =>
      by_cases hv : g.sys.claiming_address = some v
      · simp [hv, hup, hp]
      · simp [hv]

/-- C3 witness: the state reached by one boot-time claim (address 223, NAME
`"8000000000000001"`) observing its own broadcast echoed back. -/
theorem C3_selfEcho_immune_witness :
    onAddressClaimedReceived (step initG (.request "" 1)).sys
        (some "DF") (some "8000000000000001") =
      .ok ((step initG (.request "" 1)).sys, .none) :=
  C3_selfEcho_immune (step initG (.request "" 1))
    (Reachable.next Reachable.init (.request "" 1)) "8000000000000001" (by decide)
    (some "DF")

/-- C4 counterexample: the claim prescribes "if `afterLoss` is false and no
attempt counter exists the candidate starts at STARTING_ADDRESS; otherwise
the previous candidate is decremented by exactly 1".  With an attempt counter
of 220, an empty used set and `afterLoss = false`, that reads 219 — but the
code decrements only on the `address_claim_retry` topic and returns 220. -/
theorem C4_nextCandidate_cex :
    nextCandidate (some 220) [] false = 220 ∧ (220 : Int) ≠ 219 := by decide

/-- C4 amended: if `afterLoss` is false the candidate starts at the attempt
counter when one exists (at STARTING_ADDRESS only when it is absent) and is
NOT decremented; when `afterLoss` is true the start is decremented by exactly
one; the skip loop then yields the greatest value not above that start that
is outside `usedSet` or below MIN_ADDRESS, every skipped value being an
occupied in-pool address. -/
theorem C4_nextCandidate_spec (previous : Option Int) (used : List Int) (afterLoss : Bool) :
    nextCandidate previous used afterLoss =
      skipUsed used (if afterLoss then jsOrInt previous STARTING_ADDRESS - 1
        else jsOrInt previous STARTING_ADDRESS) ∧
    nextCandidate previous used afterLoss ≤
      (if afterLoss then jsOrInt previous STARTING_ADDRESS - 1
        else jsOrInt previous STARTING_ADDRESS) ∧
    (nextCandidate previous used afterLoss < MIN_ADDRESS ∨
      nextCandidate previous used afterLoss ∉ used) ∧
    ∀ b : Int, nextCandidate previous used afterLoss < b →
      b ≤ (if afterLoss then jsOrInt previous STARTING_ADDRESS - 1
        else jsOrInt previous STARTING_ADDRESS) →
      b ∈ used ∧ MIN_ADDRESS ≤ b := by
  have h := skipUsed_spec used (if afterLoss then jsOrInt previous STARTING_ADDRESS - 1
    else jsOrInt previous STARTING_ADDRESS)
  exact ⟨rfl, h.1, h.2.1, h.2.2⟩

/-- C4 amended witness: a loss at 215 with 214 occupied selects 213, and the
skipped 214 is an occupied in-pool address. -/
theorem C4_nextCandidate_spec_witness :
    nextCandidate (some 215) [214] true = 213 ∧ (214 : Int) ∈ [214] ∧ MIN_ADDRESS ≤ 214 := by
  refine ⟨by decide, ?_, ?_⟩
  · exact ((C4_nextCandidate_spec (some 215) [214] true).2.2.2 214 (by decide) (by decide)).1
  · exact ((C4_nextCandidate_spec (some 215) [214] true).2.2.2 214 (by decide) (by decide)).2

/-- C5: whenever the candidate selected by one request invocation falls below
MIN_ADDRESS, the cycle ends as PoolExhausted: no claim frame is emitted,
`claiming` is cleared to false, and — because the monitor is a no-op in every
state with `claiming` false — no retry signal can be produced afterwards, so
no automatic retry occurs until a new external trigger. -/
theorem C5_poolExhausted_terminal (st : SysState) (topic : String) (serial : Nat)
    (hex : nextCandidate (requestMidState st topic serial).address_attempt
      (requestMidState st topic serial).used_addresses
      (topic = "address_claim_retry") < MIN_ADDRESS) :
    (addressClaimRequest st topic serial).2 = none ∧
    ((addressClaimRequest st topic serial).1).claim_in_progress = false ∧
    ∀ src pl, onAddressClaimedReceived (addressClaimRequest st topic serial).1 src pl =
      .ok ((addressClaimRequest st topic serial).1, .none) := by
  have hreq : addressClaimRequest st topic serial =
      ({ requestMidState st topic serial with claim_in_progress := false }, none) := by
    simp only [addressClaimRequest]
    rw [if_pos hex]
  rw [hreq]
  exact ⟨rfl, rfl, fun src pl => rfl⟩

/-- C5 witness: a retry from attempt counter 208 selects 207 < MIN_ADDRESS:
no frame, `claiming` cleared, and a subsequent competitor frame is ignored. -/
theorem C5_poolExhausted_terminal_witness :
    (addressClaimRequest { initSys with address_attempt := some 208 }
      "address_claim_retry" 5).2 = none ∧
    ((addressClaimRequest { initSys with address_attempt := some 208 }
      "address_claim_retry" 5).1).claim_in_progress = false ∧
    onAddressClaimedReceived
        (addressClaimRequest { initSys with address_attempt := some 208 }
          "address_claim_retry" 5).1 (some "D0") (some "7000000000112233") =
      .ok ((addressClaimRequest { initSys with address_attempt := some 208 }
        "address_claim_retry" 5).1, .none) := by
  have h := C5_poolExhausted_terminal { initSys with address_attempt := some 208 }
    "address_claim_retry" 5 (by decide)
  exact ⟨h.1, h.2.1, h.2.2 (some "D0") (some "7000000000112233")⟩

/-- C6: the two success paths for claim-timer expiry are not behaviorally
equivalent: in any reachable state with a live claim, the canonical handler
commits silently (output `none`, no bus frame), while the re-broadcast
variant emits a claim frame whose 8-byte payload is the hard-coded constant
`C3A1F00700000000` — an identity that differs from the node's own NAME
(every NAME starts with `8000000000`). -/
theorem C6_success_paths_divergent (g : GState) (a : Int) (n : String)
    (hg : Reachable g)
    (hc : g.sys.claim_in_progress = true)
    (ha : g.sys.claiming_address = some a)
    (hn : g.sys.our_device_name = some n) :
    onClaimTimerFired g.sys (some a) =
      ({ g.sys with
          rvc_source_address := some a,
          claim_in_progress := false,
          claiming_address := none,
          our_device_name := none }, none) ∧
    onClaimTimerFiredAutofill g.sys =
      ({ g.sys with
          rvc_source_address := some a,
          claim_in_progress := false,
          claiming_address := none },
        some (toHexPadUpper 8 (autofillCanId a) ++ "#" ++ "C3A1F00700000000")) ∧
    "C3A1F00700000000" ≠ n := by
  refine ⟨?_, ?_, ?_⟩
  · simp [onClaimTimerFired, hc, ha]
  · simp [onClaimTimerFiredAutofill, hc, ha]
  · obtain ⟨⟨-, hshape⟩, -⟩ := reachable_inv g hg
    obtain ⟨t, hnt, -⟩ := hshape n hn
    rw [hnt]
    intro hcontra
    have hd := congrArg String.data hcontra
    rw [String.data_append] at hd
    have h1 : ("C3A1F00700000000" : String).data =
        'C' :: ("3A1F00700000000" : String).data := by decide
    have h2 : ("8000000000" : String).data = '8' :: ("000000000" : String).data := by decide
    rw [h1, h2, List.cons_append] at hd
    injection hd with hd1 hd2
    exact absurd hd1 (by decide)

/-- C6 witness: the reachable state after one boot-time claim of address 223
with generated NAME `"8000000000000001"`. -/
theorem C6_success_paths_divergent_witness :
    onClaimTimerFired (step initG (.request "" 1)).sys (some 223) =
      ({ (step initG (.request "" 1)).sys with
          rvc_source_address := some 223,
          claim_in_progress := false,
          claiming_address := none,
          our_device_name := none }, none) ∧
    onClaimTimerFiredAutofill (step initG (.request "" 1)).sys =
      ({ (step initG (.request "" 1)).sys with
          rvc_source_address := some 223,
          claim_in_progress := false,
          claiming_address := none },
        some (toHexPadUpper 8 (autofillCanId 223) ++ "#" ++ "C3A1F00700000000")) ∧
    "C3A1F00700000000" ≠ "8000000000000001" :=
  C6_success_paths_divergent (step initG (.request "" 1)) 223 "8000000000000001"
    (Reachable.next Reachable.init (.request "" 1)) (by decide) (by decide) (by decide)

/-- C7: the re-broadcast success variant performs no token comparison — its
guard checks only `claim_in_progress` and a non-null `claiming_address`, and
it then commits the live claiming address.  In the concrete interleaving
boot-claim 223 → conflict lost → retry claims 222, the stale timer armed for
the abandoned candidate 223 fires through the variant and commits the
in-flight candidate 222 although no timer event for 222 (no elapsed 250 ms
quiet window for it) has occurred; the canonical handler ignores the same
stale token. -/
theorem C7_staleTimer_commits_inflight :
    (∀ (st : SysState) (a : Int), st.claim_in_progress = true →
      st.claiming_address = some a →
      onClaimTimerFiredAutofill st =
        ({ st with
            rvc_source_address := some a,
            claim_in_progress := false,
            claiming_address := none },
          some (toHexPadUpper 8 (autofillCanId a) ++ "#" ++ "C3A1F00700000000"))) ∧
    ((run [.request "" 1]).sys.claiming_address = some 223 ∧
      (run [.request "" 1, .frame (some "DF") (some "7000000000112233"),
        .request "address_claim_retry" 1]).sys.claiming_address = some 222 ∧
      (onClaimTimerFiredAutofill
        (run [.request "" 1, .frame (some "DF") (some "7000000000112233"),
          .request "address_claim_retry" 1]).sys).1.rvc_source_address = some 222 ∧
      (onClaimTimerFired
        (run [.request "" 1, .frame (some "DF") (some "7000000000112233"),
          .request "address_claim_retry" 1]).sys (some 223)).1 =
        (run [.request "" 1, .frame (some "DF") (some "7000000000112233"),
          .request "address_claim_retry" 1]).sys) := by
  constructor
  · intro st a hc ha
    simp [onClaimTimerFiredAutofill, hc, ha]
  · exact ⟨by decide, by decide, by decide, by decide⟩

/-- C7 witness: a live claim for address 210 is committed by the variant with
the hard-coded payload, with no token ever compared. -/
theorem C7_staleTimer_commits_inflight_witness :
    onClaimTimerFiredAutofill
        { initSys with claim_in_progress := true, claiming_address := some 210 } =
      ({ initSys with
          claim_in_progress := false,
          claiming_address := none,
          rvc_source_address := some 210 },
        some (toHexPadUpper 8 (autofillCanId 210) ++ "#" ++ "C3A1F00700000000")) :=
  C7_staleTimer_commits_inflight.1
    { initSys with claim_in_progress := true, claiming_address := some 210 } 210 rfl rfl

/-- C8 counterexample: the claimed mutual exclusion between `claiming = true`
and a set CommittedAddress fails on the code: after boot-claim 223 → timer
commit → a fresh request trigger, the reachable state has `claiming = true`
while `CommittedAddress` (`rvc_source_address`) is still 223, because
starting a new cycle never clears the committed address. -/
theorem C8_invariant_cex :
    Reachable (run [.request "" 1, .timer (some 223), .request "" 1]) ∧
    (run [.request "" 1, .timer (some 223), .request "" 1]).sys.claim_in_progress = true ∧
    (run [.request "" 1, .timer (some 223), .request "" 1]).sys.rvc_source_address =
      some 223 := by
  refine ⟨?_, by decide, by decide⟩
  exact Reachable.next (Reachable.next (Reachable.next Reachable.init
    (.request "" 1)) (.timer (some 223))) (.request "" 1)

/-- C8 amended: the second half of the invariant holds: in every reachable
state, `claimingAddress`, when non-null, equals the address of the most
recently broadcast (not yet superseded) claim frame.  The mutual-exclusion
half is dropped: a post-commit retrigger makes `claiming = true` coexist with
a set CommittedAddress, since no handler clears `rvc_source_address` when a
new cycle starts. -/
theorem C8_claimingAddress_lastBroadcast (g : GState) (hg : Reachable g) (a : Int)
    (h : g.sys.claiming_address = some a) : g.lastBroadcast = some a :=
  (reachable_inv g hg).2 a h

/-- C8 amended witness: after the boot-time claim the live claiming address
223 is exactly the last broadcast address. -/
theorem C8_claimingAddress_lastBroadcast_witness :
    (run [.request "" 1]).lastBroadcast = some 223 :=
  C8_claimingAddress_lastBroadcast (run [.request "" 1])
    (Reachable.next Reachable.init (.request "" 1)) 223 (by decide)

/-- C9: for every pool address and every NAME, the broadcast frame is the
8-digit upper-case hex rendering of the 29-bit identifier
`(6 << 26) | (0xEE00 << 8) | address` followed by `#` and the NAME verbatim
(no byte swapping — the payload is the NAME string itself); the rendered
identifier has exactly 8 upper-case hex digits and parses back to the same
identifier value. -/
theorem C9_broadcastClaim_frame (name : String) (address : Int)
    (h1 : MIN_ADDRESS ≤ address) (h2 : address ≤ STARTING_ADDRESS) :
    broadcastClaim name address = toHexPadUpper 8 (claimCanId address) ++ "#" ++ name ∧
    claimCanId address = Nat.lor (Nat.lor (6 <<< 26) (0xEE00 <<< 8)) address.toNat ∧
    (toHexPadUpper 8 (claimCanId address)).length = 8 ∧
    (∀ c ∈ (toHexPadUpper 8 (claimCanId address)).data, c ∈ ("0123456789ABCDEF").data) ∧
    hexVal? (toHexPadUpper 8 (claimCanId address)) = some (claimCanId address) := by
  refine ⟨rfl, rfl, ?_⟩
  have h1' : (208 : Int) ≤ address := h1
  have h2' : address ≤ (223 : Int) := h2
  interval_cases address <;> exact (by decide)

/-- C9 witness: address 223 (0xDF) with identity `8000000000ABCDEF` yields
the frame `18EE00DF#8000000000ABCDEF`. -/
theorem C9_broadcastClaim_frame_witness :
    broadcastClaim "8000000000ABCDEF" 223 =
        toHexPadUpper 8 (claimCanId 223) ++ "#" ++ "8000000000ABCDEF" ∧
    broadcastClaim "8000000000ABCDEF" 223 = "18EE00DF#8000000000ABCDEF" :=
  ⟨(C9_broadcastClaim_frame "8000000000ABCDEF" 223 (by decide) (by decide)).1, by decide⟩

/-- C10 counterexample: while a claim is in flight, a claim-type frame whose
identity field (`dataPayload`) is missing is NOT logged-and-ignored: the
monitor's unguarded `msg.payload.dataPayload.toUpperCase()` throws a
TypeError, i.e. the handler crashes, refuting the claim as stated. -/
theorem C10_malformed_cex :
    onAddressClaimedReceived
      { initSys with
          claim_in_progress := true,
          claiming_address := some 223,
          our_device_name := some "8000000000000001" }
      (some "DF") none = .error () := rfl

/-- C10 amended: a frame missing only the source-address field is silently
absorbed with the in-flight state unchanged (`parseInt` yields NaN, matching
no claiming address), and any malformed frame is absorbed when no claim is in
flight; but a frame missing the identity field while claiming makes the
handler throw — before any state write, so the claim state survives, yet the
handler crashes rather than logging and ignoring. -/
theorem C10_malformed_frames (st : SysState) (src : Option String) (pl : String) :
    (onAddressClaimedReceived st none (some pl) = .ok (st, .none)) ∧
    (st.claim_in_progress = false → onAddressClaimedReceived st src none = .ok (st, .none)) ∧
    (st.claim_in_progress = true → onAddressClaimedReceived st src none = .error ()) := by
  refine ⟨?_, fun h => ?_, fun h => ?_⟩
  · unfold onAddressClaimedReceived
    cases hc : st.claim_in_progress <;> simp [hc]
  · simp [onAddressClaimedReceived, h]
  · simp [onAddressClaimedReceived, h]

/-- C10 amended witness: concrete claiming state: an address-less frame is
absorbed unchanged, an identity-less frame throws; with claiming false the
identity-less frame is absorbed. -/
theorem C10_malformed_frames_witness :
    onAddressClaimedReceived
        { initSys with
            claim_in_progress := true,
            claiming_address := some 223,
            our_device_name := some "8000000000000001" }
        none (some "7000000000112233") =
      .ok ({ initSys with
          claim_in_progress := true,
          claiming_address := some 223,
          our_device_name := some "8000000000000001" }, .none) ∧
    onAddressClaimedReceived { initSys with claim_in_progress := false }
        (some "DF") none =
      .ok ({ initSys with claim_in_progress := false }, .none) ∧
    onAddressClaimedReceived
        { initSys with
            claim_in_progress := true,
            claiming_address := some 222,
            our_device_name := some "8000000000000001" }
        (some "DE") none = .error () := by
  refine ⟨?_, ?_, ?_⟩
  · exact (C10_malformed_frames
      { initSys with
          claim_in_progress := true,
          claiming_address := some 223,
          our_device_name := some "8000000000000001" }
      none "7000000000112233").1
  · exact (C10_malformed_frames { initSys with claim_in_progress := false }
      (some "DF") "x").2.1 rfl
  · exact (C10_malformed_frames
      { initSys with
          claim_in_progress := true,
          claiming_address := some 222,
          our_device_name := some "8000000000000001" }
      (some "DE") "x").2.2 rfl

end RVC
